import Mathlib

/-!
Verification development for the llm-viz frame scheduler, walkthrough
state machine and model-execution binding (`LayerView.tsx`, class
`CanvasRender`).

Timestamps and pixel measurements are JavaScript doubles in the source;
they are embedded as rationals (`ℚ`).  Nullable references become
`Option`.  Host effects (`requestAnimationFrame`, canvas backing-surface
writes, GPU dispatch) are made observable as explicit outputs of the step
functions: each operation returns its successor state together with the
number of frame-callback requests it issued, the backing-surface resizes
it performed and the model calls it dispatched.
-/

set_option autoImplicit false

namespace LlmViz

/-! ### Data model -/

/-- A tensor as described by the spec data model: a shape together with a
flat data buffer. -/
structure Tensor where
  shape : List ℕ
  data : List ℚ
deriving DecidableEq, Repr

/-- A named collection of tensors (`ITensorSet`). -/
abbrev TensorSet := List (String × Tensor)

/-- `IDataAndModel`: the runtime-input tensor set paired with the weights
tensor set. -/
structure IDataAndModel where
  data : TensorSet
  model : TensorSet
deriving DecidableEq, Repr

/-- `ICanvasData` from `LayerView.tsx`: an optional `IDataAndModel`. -/
structure ICanvasData where
  dataAndModel : Option IDataAndModel
deriving DecidableEq, Repr

/-- Modelled from the spec: the seeded random generator (`./utils/random`
is not part of the source excerpt).  The spec fixes only that the
generator holds internal state seeded once at construction and yields a
deterministic sequence of values in `[0, 1)`; a concrete deterministic
update rule stands in for the unspecified one.  The state is the seed
together with the number of values drawn so far. -/
structure Random where
  seed : ℤ
  idx : ℕ
deriving DecidableEq, Repr

/-- Modelled from the spec: `new Random(seed)` — fresh generator, no
values drawn yet. -/
def Random.mkGen (seed : ℤ) : Random := ⟨seed, 0⟩

/-- Modelled from the spec: `next() -> float in [0,1)`; deterministic in
the generator state, advancing it. -/
def Random.next (r : Random) : ℚ × Random :=
  (((r.seed * ((r.idx : ℤ) + 1) + 17) % 1000 : ℤ) / 1000, ⟨r.seed, r.idx + 1⟩)

/-- Draw `n` successive values, returning them with the final generator
state. -/
def Random.nexts (r : Random) : ℕ → List ℚ × Random
  | 0 => ([], r)
  | n + 1 =>
    let (v, r1) := r.next
    let (vs, r2) := r1.nexts n
    (v :: vs, r2)

/-- Modelled from the spec: the backend-resident model handle created by
`initModel` (`./GptModel` is not part of the source excerpt).  It retains
the batch size, the input buffer written by `setModelInputData` and the
per-layer activation data produced by `runModel`. -/
structure GpuModel where
  batchSize : ℕ
  inputData : List ℚ
  activations : List ℚ
deriving DecidableEq, Repr

/-- Modelled from the spec: `initModel` allocates backend buffers for the
given tensor sets and batch size; no input has been written and no
forward pass has run yet. -/
def initModel (_dm : IDataAndModel) (batchSize : ℕ) : GpuModel :=
  ⟨batchSize, [], []⟩

/-- Modelled from the spec: `setModelInputData` writes `batchSize`
input sequences using the seeded generator, deterministically in the
generator state, advancing it. -/
def setModelInputData (m : GpuModel) (r : Random) : GpuModel × Random :=
  let (vals, r1) := r.nexts m.batchSize
  ({ m with inputData := vals }, r1)

/-- Modelled from the spec: `runModel` executes the forward pass as a
deterministic function of the written input data, producing the
activation data (the numerical kernels are out of the spec's scope; a
concrete deterministic function stands in). -/
def runModel (m : GpuModel) : GpuModel :=
  { m with activations := m.inputData.map (fun x => x * x) }

/-- Label for a model-execution call dispatched by the session, used to
record call order. -/
inductive ModelCall where
  | initModel
  | setModelInputData
  | runModel
deriving DecidableEq, Repr

/-! ### Walkthrough state machine -/

/-- The walkthrough fields touched by the host-input commands in
`handleKeyDown` (`LayerView.tsx`): `running`, `time`, `phaseLength`. -/
structure Walkthrough where
  running : Bool
  time : ℚ
  phaseLength : ℚ
deriving DecidableEq, Repr

/-- `handleKeyDown` from `LayerView.tsx`, restricted to its effect on the
walkthrough fields: the branches for `' '` (toggle), `'Backspace'` /
`'Delete'` (reset) and `'f'` / `'F'` (skip-to-end) are applied in source
order. -/
def handleKeyDown (key : String) (w : Walkthrough) : Walkthrough :=
  let w1 := if key = " " then { w with running := !w.running } else w
  let w2 := if key = "Backspace" ∨ key = "Delete" then
      { w1 with running := false, time := 0 } else w1
  let w3 := if key = "f" ∨ key = "F" then
      { w2 with running := false, time := w2.phaseLength } else w2
  w3

/-- The Toggle command (space key). -/
def toggleCmd (w : Walkthrough) : Walkthrough := handleKeyDown " " w

/-- The Reset command (Backspace key). -/
def resetCmd (w : Walkthrough) : Walkthrough := handleKeyDown "Backspace" w

/-- The Skip-to-end command (f key). -/
def skipCmd (w : Walkthrough) : Walkthrough := handleKeyDown "f" w

/-! ### Render/frame scheduler (class `CanvasRender`) -/

/-- The scheduler fields of `CanvasRender`.  `rafPending` embeds
`rafHandle !== 0` (a `requestAnimationFrame` handle is outstanding);
`size` embeds the backing-surface dimensions in device pixels
(`canvasEl.width/height`, mirrored into `progState.render.size`). -/
structure CanvasRender where
  canvasData : Option ICanvasData
  stopped : Bool
  canvasSizeDirty : Bool
  gptGpuModel : Option GpuModel
  random : Random
  prevTime : ℚ
  rafPending : Bool
  isDirty : Bool
  size : ℚ × ℚ
deriving DecidableEq, Repr

/-- The `CanvasRender` constructor: `canvasData` is the constructor
argument (the setup effect passes `null`), `stopped = false`,
`canvasSizeDirty = true`, no GPU model yet, `random = new Random(4)`,
`prevTime = performance.now()` (passed in as `t0`), no frame pending and
the dirty flag clear.  `size0` is the canvas element's initial backing
size. -/
def mkCanvasRender (cd : Option ICanvasData) (t0 : ℚ) (size0 : ℚ × ℚ) :
    CanvasRender :=
  { canvasData := cd
    stopped := false
    canvasSizeDirty := true
    gptGpuModel := none
    random := Random.mkGen 4
    prevTime := t0
    rafPending := false
    isDirty := false
    size := size0 }

/-- `markDirty` from `CanvasRender`.  `now` is `performance.now()`.
Returns the successor state and the number of frame-callback requests
issued (`requestAnimationFrame` calls). -/
def markDirty (now : ℚ) (s : CanvasRender) : CanvasRender × ℕ :=
  if s.canvasData.isNone ∨ s.stopped then (s, 0)
  else if s.rafPending then ({ s with isDirty := true }, 0)
  else ({ s with isDirty := true, prevTime := now, rafPending := true }, 1)

/-- `destroy` from `CanvasRender`: sets the `stopped` flag. -/
def destroy (s : CanvasRender) : CanvasRender := { s with stopped := true }

/-- The body of `setData` before the trailing `markDirty`: stores the
new canvas data and, when a `dataAndModel` is present and no GPU model
exists yet, dispatches `initModel`, `setModelInputData` (consuming the
session generator) and `runModel`, recording the calls in order. -/
def setDataInner (d : ICanvasData) (s : CanvasRender) :
    CanvasRender × List ModelCall :=
  match d.dataAndModel, s.gptGpuModel with
  | some dm, none =>
    ({ s with canvasData := some d,
              gptGpuModel :=
                some (runModel (setModelInputData (initModel dm 1) s.random).1),
              random := (setModelInputData (initModel dm 1) s.random).2 },
     [ModelCall.initModel, ModelCall.setModelInputData, ModelCall.runModel])
  | _, _ => ({ s with canvasData := some d }, [])

/-- `setData` from `CanvasRender`.  Returns the successor state, the
ordered list of model-execution calls dispatched, and the number of
frame-callback requests issued (by the trailing `markDirty`). -/
def setData (d : ICanvasData) (now : ℚ) (s : CanvasRender) :
    CanvasRender × List ModelCall × ℕ :=
  ((markDirty now (setDataInner d s).1).1, (setDataInner d s).2,
   (markDirty now (setDataInner d s).1).2)

/-- Per-frame host environment: the element's box as measured by
`getBoundingClientRect()` at render time, `window.devicePixelRatio`, and
whether `runProgram` calls `view.markDirty` during this render pass
(e.g. a still-running walkthrough). -/
structure RenderEnv where
  boxW : ℚ
  boxH : ℚ
  dpr : ℚ
  progMarksDirty : Bool
deriving DecidableEq, Repr

/-- The backing-surface reconciliation at the top of `render`: when
`canvasSizeDirty` is set, re-measure the element box, scale by the
device pixel ratio, resize the backing surface once and clear the flag.
Returns the state and the list of surface resizes performed. -/
def resizeIfDirty (env : RenderEnv) (s : CanvasRender) :
    CanvasRender × List (ℚ × ℚ) :=
  if s.canvasSizeDirty then
    ({ s with size := (env.boxW * env.dpr, env.boxH * env.dpr),
              canvasSizeDirty := false },
     [(env.boxW * env.dpr, env.boxH * env.dpr)])
  else (s, [])

/-- `render` from `CanvasRender`: performs the at-most-one
backing-surface resize when `canvasSizeDirty` is set, then runs the
program, which may call `view.markDirty` during the pass.  Returns the
successor state, the list of backing-surface resizes performed, and the
number of frame-callback requests issued from within the render pass. -/
def render (now : ℚ) (env : RenderEnv) (s : CanvasRender) :
    CanvasRender × List (ℚ × ℚ) × ℕ :=
  if env.progMarksDirty then
    ((markDirty now (resizeIfDirty env s).1).1, (resizeIfDirty env s).2,
     (markDirty now (resizeIfDirty env s).1).2)
  else ((resizeIfDirty env s).1, (resizeIfDirty env s).2, 0)

/-- Everything a frame callback makes observable: whether a render pass
ran, the delta time passed to it, the frame-callback requests issued and
the backing-surface resizes performed. -/
structure StepOut where
  rendered : Bool
  renderDt : Option ℚ
  requests : ℕ
  resizes : List (ℚ × ℚ)
deriving DecidableEq, Repr

/-- The output of a step that touched none of the host effects. -/
def StepOut.none : StepOut := ⟨false, Option.none, 0, []⟩

/-- `loop` from `CanvasRender`: the frame callback.  `time` is the
callback timestamp.  If the dirty flag is clear or the scheduler is
stopped, it clears the pending handle and exits; otherwise it clears the
dirty flag, computes the delta time with the `< 8 → 16` floor, updates
`prevTime`, renders once and requests the next frame callback. -/
def loop (time : ℚ) (env : RenderEnv) (s : CanvasRender) :
    CanvasRender × StepOut :=
  if ¬s.isDirty ∨ s.stopped then
    ({ s with rafPending := false }, StepOut.none)
  else
    ({ (render time env { s with isDirty := false, prevTime := time }).1 with
        rafPending := true },
     ⟨true,
      some (if time - s.prevTime < 8 then 16 else time - s.prevTime),
      (render time env { s with isDirty := false, prevTime := time }).2.2 + 1,
      (render time env { s with isDirty := false, prevTime := time }).2.1⟩)

/-! ### Event traces -/

/-- External events driving one scheduler: direct `markDirty` calls
(walkthrough commands), a queued frame callback firing, `destroy`,
`setData`, and a `ResizeObserver` notification (which sets
`canvasSizeDirty` and calls `markDirty`, per the setup effect in
`LayerView.tsx`). -/
inductive Event where
  | markDirtyEv (now : ℚ)
  | frameEv (time : ℚ) (env : RenderEnv)
  | destroyEv
  | setDataEv (d : ICanvasData) (now : ℚ)
  | resizeEv (now : ℚ)
deriving DecidableEq, Repr

/-- One event step.  A frame callback only fires when one is queued
(`rafPending`). -/
def stepEv (s : CanvasRender) : Event → CanvasRender × StepOut
  | .markDirtyEv now =>
    ((markDirty now s).1, { StepOut.none with requests := (markDirty now s).2 })
  | .frameEv time env =>
    if s.rafPending then loop time env s else (s, StepOut.none)
  | .destroyEv => (destroy s, StepOut.none)
  | .setDataEv d now =>
    ((setData d now s).1, { StepOut.none with requests := (setData d now s).2.2 })
  | .resizeEv now =>
    ((markDirty now { s with canvasSizeDirty := true }).1,
     { StepOut.none with requests := (markDirty now { s with canvasSizeDirty := true }).2 })

/-- Run a trace of events from a state. -/
def runFrom (s : CanvasRender) : List Event → CanvasRender
  | [] => s
  | e :: l => runFrom (stepEv s e).1 l

/-- Number of render passes performed along a trace. -/
def renderCount (s : CanvasRender) : List Event → ℕ
  | [] => 0
  | e :: l =>
    (if (stepEv s e).2.rendered then 1 else 0) + renderCount (stepEv s e).1 l

/-- All backing-surface resizes performed along a trace, in order. -/
def allResizes (s : CanvasRender) : List Event → List (ℚ × ℚ)
  | [] => []
  | e :: l => (stepEv s e).2.resizes ++ allResizes (stepEv s e).1 l

/-- Whether an event is a call into `markDirty`: a direct call, a resize
notification, `setData` (which ends in `markDirty`), or a render pass
whose program calls `view.markDirty`. -/
def marksDirtyEvent : Event → Bool
  | .markDirtyEv _ => true
  | .frameEv _ env => env.progMarksDirty
  | .destroyEv => false
  | .setDataEv _ _ => true
  | .resizeEv _ => true

/-- Total frame-callback requests issued by a sequence of direct
`markDirty` calls at the given timestamps. -/
def markDirtySeq (ts : List ℚ) (s : CanvasRender) : CanvasRender × ℕ :=
  match ts with
  | [] => (s, 0)
  | t :: rest =>
    ((markDirtySeq rest (markDirty t s).1).1,
     (markDirty t s).2 + (markDirtySeq rest (markDirty t s).1).2)

/-! ### Helper lemmas -/

lemma markDirty_gptGpuModel (now : ℚ) (s : CanvasRender) :
    (markDirty now s).1.gptGpuModel = s.gptGpuModel := by
  unfold markDirty; split_ifs <;> rfl

lemma markDirty_canvasData (now : ℚ) (s : CanvasRender) :
    (markDirty now s).1.canvasData = s.canvasData := by
  unfold markDirty; split_ifs <;> rfl

lemma markDirty_stopped (now : ℚ) (s : CanvasRender) :
    (markDirty now s).1.stopped = s.stopped := by
  unfold markDirty; split_ifs <;> rfl

lemma markDirty_pending_true {s : CanvasRender} (now : ℚ)
    (h : s.rafPending = true) :
    (markDirty now s).1.rafPending = true ∧ (markDirty now s).2 = 0 := by
  unfold markDirty; split_ifs with h1
  · exact ⟨h, rfl⟩
  · exact ⟨h, rfl⟩

lemma markDirtySeq_pending {s : CanvasRender} (ts : List ℚ)
    (h : s.rafPending = true) : (markDirtySeq ts s).2 = 0 := by
  induction ts generalizing s with
  | nil => rfl
  | cons t rest ih =>
    obtain ⟨h1, h2⟩ := markDirty_pending_true (s := s) t h
    simp [markDirtySeq, h2, ih h1]

lemma markDirty_prevTime_of (now : ℚ) {s : CanvasRender}
    (h : s.prevTime = now) : (markDirty now s).1.prevTime = now := by
  unfold markDirty; split_ifs <;> simp [h]

lemma resizeIfDirty_prevTime (env : RenderEnv) (s : CanvasRender) :
    (resizeIfDirty env s).1.prevTime = s.prevTime := by
  unfold resizeIfDirty; split_ifs <;> rfl

lemma render_prevTime (now : ℚ) (env : RenderEnv) {s : CanvasRender}
    (h : s.prevTime = now) : (render now env s).1.prevTime = now := by
  unfold render; split_ifs
  · exact markDirty_prevTime_of now (by rw [resizeIfDirty_prevTime, h])
  · rw [resizeIfDirty_prevTime, h]

/-! ### C2 -/

/-- C2: on a dirty frame callback, the delta time passed to the render
pass equals `time - prevTime` when that difference is at least 8 ms, and
equals exactly 16 ms when it is below 8 ms (including 3 ms, zero or
negative differences); `prevTime` is updated to the callback timestamp
either way. -/
theorem loop_delta_time_floor (s : CanvasRender) (time : ℚ) (env : RenderEnv)
    (hdirty : s.isDirty = true) (hstop : s.stopped = false) :
    (8 ≤ time - s.prevTime →
      (loop time env s).2.renderDt = some (time - s.prevTime)) ∧
    (time - s.prevTime < 8 → (loop time env s).2.renderDt = some 16) ∧
    (loop time env s).1.prevTime = time := by
  unfold loop
  rw [if_neg (by simp [hdirty, hstop])]
  refine ⟨?_, ?_, ?_⟩
  · intro h
    show some (if time - s.prevTime < 8 then 16 else time - s.prevTime) =
      some (time - s.prevTime)
    rw [if_neg (not_lt.mpr h)]
  · intro h
    show some (if time - s.prevTime < 8 then 16 else time - s.prevTime) =
      some 16
    rw [if_pos h]
  · exact render_prevTime time env rfl

/-- Witness for `loop_delta_time_floor` at a concrete dirty state with a
raw delta of 3 ms: the floor substitutes 16 ms and `prevTime` advances. -/
theorem loop_delta_time_floor_w :
    (loop 3 ⟨10, 20, 2, false⟩
      ⟨some ⟨none⟩, false, false, none, ⟨4, 0⟩, 0, true, true, (0, 0)⟩).2.renderDt
      = some 16 ∧
    (loop 3 ⟨10, 20, 2, false⟩
      ⟨some ⟨none⟩, false, false, none, ⟨4, 0⟩, 0, true, true, (0, 0)⟩).1.prevTime
      = 3 :=
  ⟨(loop_delta_time_floor
      ⟨some ⟨none⟩, false, false, none, ⟨4, 0⟩, 0, true, true, (0, 0)⟩
      3 ⟨10, 20, 2, false⟩ rfl rfl).2.1 (by norm_num),
   (loop_delta_time_floor
      ⟨some ⟨none⟩, false, false, none, ⟨4, 0⟩, 0, true, true, (0, 0)⟩
      3 ⟨10, 20, 2, false⟩ rfl rfl).2.2⟩

/-! ### C3 -/

/-- C3: Toggle negates `running` and changes nothing else; Reset sets
`running := false` and `time := 0`; Skip-to-end sets `running := false`
and `time := phaseLength`; `phaseLength` is unchanged by all three.  The
concrete sequence from `{running := false, time := 0, phaseLength := 10}`
behaves as specified. -/
theorem walkthrough_transitions :
    (∀ w : Walkthrough,
      toggleCmd w = { w with running := !w.running } ∧
      resetCmd w = { w with running := false, time := 0 } ∧
      skipCmd w = { w with running := false, time := w.phaseLength }) ∧
    toggleCmd ⟨false, 0, 10⟩ = ⟨true, 0, 10⟩ ∧
    resetCmd (toggleCmd ⟨false, 0, 10⟩) = ⟨false, 0, 10⟩ ∧
    skipCmd (resetCmd (toggleCmd ⟨false, 0, 10⟩)) = ⟨false, 10, 10⟩ :=
  ⟨fun _ => ⟨rfl, rfl, rfl⟩, rfl, rfl, rfl⟩

/-! ### C5 (corrected) -/

/-- C5 counterexample: Toggle is not idempotent — from
`{running := false, time := 0, phaseLength := 10}`, applying Toggle twice
differs from applying it once. -/
theorem toggle_not_idempotent :
    toggleCmd (toggleCmd ⟨false, 0, 10⟩) ≠ toggleCmd ⟨false, 0, 10⟩ := by
  decide

/-- C5 amended: Reset and Skip-to-end are idempotent and all three
commands are total (safe in any state); Toggle is an involution — two
applications restore the original state — rather than idempotent. -/
theorem command_idempotence_status :
    ∀ w : Walkthrough,
      resetCmd (resetCmd w) = resetCmd w ∧
      skipCmd (skipCmd w) = skipCmd w ∧
      toggleCmd (toggleCmd w) = w := by
  intro w
  refine ⟨rfl, rfl, ?_⟩
  obtain ⟨r, t, p⟩ := w
  cases r <;> rfl

/-! ### C4 (corrected) -/

/-- A destroyed scheduler state with a queued frame callback. -/
def sDestroyed : CanvasRender :=
  ⟨some ⟨none⟩, true, false, none, ⟨4, 0⟩, 0, true, true, (0, 0)⟩

/-- C4 counterexample: firing a queued frame callback after `destroy()`
is not free of state mutation — it clears the pending `rafHandle`, so
the successor state differs from the original. -/
theorem destroyed_frame_mutates_state :
    (stepEv sDestroyed (Event.frameEv 5 ⟨10, 20, 2, false⟩)).1 ≠ sDestroyed := by
  decide

/-- C4 amended: after `destroy()`, firing a queued frame callback
performs no render pass, issues no frame-callback request, performs no
backing-surface resize, and mutates no scheduler field other than
clearing the pending frame handle (`rafHandle := 0`). -/
theorem destroyed_frame_safe (s : CanvasRender) (time : ℚ) (env : RenderEnv)
    (hstop : s.stopped = true) (hp : s.rafPending = true) :
    stepEv s (Event.frameEv time env) =
      ({ s with rafPending := false }, StepOut.none) := by
  simp [stepEv, hp, loop, hstop]

/-- Witness for `destroyed_frame_safe` at the concrete destroyed state. -/
theorem destroyed_frame_safe_w :
    stepEv sDestroyed (Event.frameEv 5 ⟨10, 20, 2, false⟩) =
      ({ sDestroyed with rafPending := false }, StepOut.none) :=
  destroyed_frame_safe sDestroyed 5 ⟨10, 20, 2, false⟩ rfl rfl

/-! ### C8 -/

/-- C8: within a single synchronous `setData` call, when data is present
and no model handle exists yet, the session dispatches exactly
`initModel`, then `setModelInputData`, then `runModel`, in that order;
when a handle already exists no model call is dispatched, so
`setModelInputData` completes before the first `runModel` on every
handle the session creates. -/
theorem setData_call_order :
    (∀ (s : CanvasRender) (d : ICanvasData) (now : ℚ) (dm : IDataAndModel),
      d.dataAndModel = some dm → s.gptGpuModel = none →
      (setData d now s).2.1 =
        [ModelCall.initModel, ModelCall.setModelInputData, ModelCall.runModel]) ∧
    (∀ (s : CanvasRender) (d : ICanvasData) (now : ℚ),
      s.gptGpuModel.isSome → (setData d now s).2.1 = []) := by
  constructor
  · intro s d now dm hd hm
    simp [setData, setDataInner, hd, hm]
  · intro s d now hm
    obtain ⟨m, hm'⟩ := Option.isSome_iff_exists.mp hm
    cases hdm : d.dataAndModel <;> simp [setData, setDataInner, hdm, hm']

/-- Witness for `setData_call_order` at a fresh session receiving data. -/
theorem setData_call_order_w :
    (setData ⟨some ⟨[], []⟩⟩ 0 (mkCanvasRender none 0 (0, 0))).2.1 =
      [ModelCall.initModel, ModelCall.setModelInputData, ModelCall.runModel] :=
  setData_call_order.1 (mkCanvasRender none 0 (0, 0)) ⟨some ⟨[], []⟩⟩ 0
    ⟨[], []⟩ rfl rfl

/-! ### C10 -/

/-- C10: `markDirty` is a no-op (no dirty flag, no `prevTime` update, no
frame-callback request) when `canvasData` is null or the scheduler is
stopped; a freshly constructed session has `canvasData = null`, so calls
arriving before data is bound schedule no redraw. -/
theorem markDirty_inert_before_data :
    (∀ (s : CanvasRender) (now : ℚ),
      s.canvasData = none ∨ s.stopped = true → markDirty now s = (s, 0)) ∧
    (∀ (t0 now : ℚ) (size0 : ℚ × ℚ),
      markDirty now (mkCanvasRender none t0 size0) =
        (mkCanvasRender none t0 size0, 0)) := by
  constructor
  · intro s now h
    unfold markDirty
    rw [if_pos]
    rcases h with h | h <;> simp [h]
  · intro t0 now size0
    rfl

/-- Witness for `markDirty_inert_before_data` on a stopped state. -/
theorem markDirty_inert_before_data_w :
    markDirty 7 sDestroyed = (sDestroyed, 0) :=
  markDirty_inert_before_data.1 sDestroyed 7 (Or.inr rfl)

/-! ### Trace lemmas -/

lemma runFrom_append (s : CanvasRender) (l1 l2 : List Event) :
    runFrom s (l1 ++ l2) = runFrom (runFrom s l1) l2 := by
  induction l1 generalizing s with
  | nil => rfl
  | cons e l ih => simp [runFrom, ih]

lemma renderCount_append (s : CanvasRender) (l1 l2 : List Event) :
    renderCount s (l1 ++ l2) =
      renderCount s l1 + renderCount (runFrom s l1) l2 := by
  induction l1 generalizing s with
  | nil => simp [renderCount, runFrom]
  | cons e l ih => simp [renderCount, runFrom, ih]; ring

lemma markDirty_canvasSizeDirty (now : ℚ) (s : CanvasRender) :
    (markDirty now s).1.canvasSizeDirty = s.canvasSizeDirty := by
  unfold markDirty; split_ifs <;> rfl

lemma markDirty_isDirty_of_active {s : CanvasRender} (now : ℚ)
    (hd : s.canvasData.isSome = true) (hs : s.stopped = false) :
    (markDirty now s).1.isDirty = true ∧ (markDirty now s).1.rafPending = true := by
  unfold markDirty
  rw [if_neg (by simp [Option.isNone_iff_eq_none, hs,
        Option.ne_none_iff_isSome.mpr hd])]
  split_ifs with h <;> exact ⟨rfl, by simp [h]⟩

lemma resizeIfDirty_isDirty (env : RenderEnv) (s : CanvasRender) :
    (resizeIfDirty env s).1.isDirty = s.isDirty := by
  unfold resizeIfDirty; split_ifs <;> rfl

lemma rendered_isDirty_before {s : CanvasRender} {t : ℚ} {env : RenderEnv}
    (hr : (stepEv s (Event.frameEv t env)).2.rendered = true) :
    s.isDirty = true := by
  by_contra hd
  rw [Bool.not_eq_true] at hd
  unfold stepEv loop at hr
  split_ifs at hr with h1 h2
  · simp [StepOut.none] at hr
  · simp [hd] at h2
  · simp [StepOut.none] at hr

lemma marksDirty_false_rendered_isDirty {s : CanvasRender} {e : Event}
    (hm : marksDirtyEvent e = false)
    (hr : (stepEv s e).2.rendered = true) :
    (stepEv s e).1.isDirty = false := by
  cases e with
  | markDirtyEv now => simp [stepEv, StepOut.none] at hr
  | destroyEv => simp [stepEv, StepOut.none] at hr
  | setDataEv d now => simp [stepEv, StepOut.none] at hr
  | resizeEv now => simp [marksDirtyEvent] at hm
  | frameEv t env =>
    have hpm : env.progMarksDirty = false := by simpa [marksDirtyEvent] using hm
    unfold stepEv loop at hr ⊢
    split_ifs at hr ⊢ with h1 h2
    · simp [StepOut.none] at hr
    · show (render t env _).1.isDirty = false
      unfold render
      rw [if_neg (by simp [hpm]), resizeIfDirty_isDirty]
    · simp [StepOut.none] at hr

lemma marksDirty_false_not_rendered_isDirty {s : CanvasRender} {e : Event}
    (hm : marksDirtyEvent e = false)
    (hr : (stepEv s e).2.rendered = false) :
    (stepEv s e).1.isDirty = s.isDirty := by
  cases e with
  | markDirtyEv now => simp [marksDirtyEvent] at hm
  | destroyEv => rfl
  | setDataEv d now => simp [marksDirtyEvent] at hm
  | resizeEv now => simp [marksDirtyEvent] at hm
  | frameEv t env =>
    unfold stepEv loop at hr ⊢
    split_ifs at hr ⊢ with h1 h2
    all_goals rfl

/-- If the dirty flag is set after running a trace from a clean state,
some event of the trace called into `markDirty`, and no render pass has
occurred since that event. -/
lemma dirty_has_mark (s0 : CanvasRender) (h0 : s0.isDirty = false) :
    ∀ l : List Event, (runFrom s0 l).isDirty = true →
      ∃ l1 e l2, l = l1 ++ e :: l2 ∧ marksDirtyEvent e = true ∧
        renderCount (runFrom s0 (l1 ++ [e])) l2 = 0 := by
  intro l
  induction l using List.reverseRecOn with
  | nil => intro h; rw [show runFrom s0 [] = s0 from rfl, h0] at h; cases h
  | append_singleton l e ih =>
    intro h
    have h' : (stepEv (runFrom s0 l) e).1.isDirty = true := by
      rw [runFrom_append] at h; exact h
    by_cases hm : marksDirtyEvent e = true
    · exact ⟨l, e, [], rfl, hm, rfl⟩
    · have hm' : marksDirtyEvent e = false := by simpa using hm
      by_cases hr : (stepEv (runFrom s0 l) e).2.rendered = true
      · rw [marksDirty_false_rendered_isDirty hm' hr] at h'; cases h'
      · have hr' : (stepEv (runFrom s0 l) e).2.rendered = false := by
          simpa using hr
        have hprev : (runFrom s0 l).isDirty = true := by
          rw [← marksDirty_false_not_rendered_isDirty hm' hr']; exact h'
        obtain ⟨l1, e', l2, heq, hm2, hrc⟩ := ih hprev
        refine ⟨l1, e', l2 ++ [e], by rw [heq]; simp, hm2, ?_⟩
        have hrun : runFrom (runFrom s0 (l1 ++ [e'])) l2 = runFrom s0 l := by
          rw [← runFrom_append, heq]; simp
        rw [renderCount_append, hrc, hrun]
        simp [renderCount, hr']

/-! ### C1 -/

/-- An active session: data bound, not stopped, no frame pending, flag
clear. -/
def sActive : CanvasRender := mkCanvasRender (some ⟨none⟩) 0 (0, 0)

/-- C1: a single `markDirty` issues at most one frame-callback request,
and issues one exactly when none is pending (leaving one pending
afterwards); consequently any non-empty sequence of `markDirty` calls
made before the next frame callback fires schedules exactly one
frame callback in total when none was pending, and none at all when one
already was. -/
theorem markDirty_schedules_once :
    (∀ (now : ℚ) (s : CanvasRender),
      (markDirty now s).2 ≤ 1 ∧
      ((markDirty now s).2 = 1 →
        s.rafPending = false ∧ (markDirty now s).1.rafPending = true)) ∧
    (∀ (s : CanvasRender) (t : ℚ) (ts : List ℚ),
      s.canvasData.isSome → s.stopped = false → s.rafPending = false →
      (markDirtySeq (t :: ts) s).2 = 1) ∧
    (∀ (s : CanvasRender) (ts : List ℚ),
      s.rafPending = true → (markDirtySeq ts s).2 = 0) := by
  refine ⟨?_, ?_, fun s ts h => markDirtySeq_pending ts h⟩
  · intro now s
    unfold markDirty
    split_ifs with h1 h2
    · simp
    · simp
    · exact ⟨le_refl 1, fun _ => ⟨by simpa using h2, rfl⟩⟩
  · intro s t ts hd hs hp
    have hfirst : markDirty t s =
        ({ s with isDirty := true, prevTime := t, rafPending := true }, 1) := by
      unfold markDirty
      rw [if_neg (by simp [Option.isNone_iff_eq_none, hs,
            Option.ne_none_iff_isSome.mpr hd]), if_neg (by simp [hp])]
    have hrest := markDirtySeq_pending
      (s := { s with isDirty := true, prevTime := t, rafPending := true }) ts rfl
    simp [markDirtySeq, hfirst, hrest]

/-- Witness for `markDirty_schedules_once`: three calls from the fresh
active session request exactly one frame. -/
theorem markDirty_schedules_once_w :
    (markDirtySeq [1, 2, 3] sActive).2 = 1 :=
  markDirty_schedules_once.2.1 sActive 1 [2, 3] rfl rfl rfl

/-! ### C9 -/

/-- C9: the session constructor always seeds the generator with the
fixed seed 4; the generator's output stream depends only on its state
(drawing `n + m` values in one run equals drawing `n` and then `m` in a
resumed run); and two independently constructed sessions given
structurally identical data produce identical model handles — in
particular identical activation data — regardless of construction and
call timestamps. -/
theorem session_determinism :
    (∀ (cd : Option ICanvasData) (t0 : ℚ) (size0 : ℚ × ℚ),
      (mkCanvasRender cd t0 size0).random = Random.mkGen 4) ∧
    (∀ (r : Random) (n m : ℕ),
      (r.nexts (n + m)).1 = (r.nexts n).1 ++ ((r.nexts n).2.nexts m).1) ∧
    (∀ (d1 d2 : ICanvasData) (cd1 cd2 : Option ICanvasData)
       (t1 t2 n1 n2 : ℚ) (z1 z2 : ℚ × ℚ),
      d1 = d2 →
      (setData d1 n1 (mkCanvasRender cd1 t1 z1)).1.gptGpuModel =
        (setData d2 n2 (mkCanvasRender cd2 t2 z2)).1.gptGpuModel) := by
  refine ⟨fun _ _ _ => rfl, ?_, ?_⟩
  · intro r n m
    induction n generalizing r with
    | zero => simp [Random.nexts]
    | succ k ih => simp [Nat.succ_add, Random.nexts, ih]
  · intro d1 d2 cd1 cd2 t1 t2 n1 n2 z1 z2 h
    subst h
    rw [setData, setData, markDirty_gptGpuModel, markDirty_gptGpuModel]
    cases hdm : d1.dataAndModel <;> simp [setDataInner, hdm, mkCanvasRender]

/-- Witness for `session_determinism`: two sessions built at different
times and marked at different timestamps agree on the model handle. -/
theorem session_determinism_w :
    (setData ⟨some ⟨[], []⟩⟩ 2 (mkCanvasRender none 0 (0, 0))).1.gptGpuModel =
      (setData ⟨some ⟨[], []⟩⟩ 3 (mkCanvasRender (some ⟨none⟩) 1 (5, 5))).1.gptGpuModel :=
  session_determinism.2.2 ⟨some ⟨[], []⟩⟩ ⟨some ⟨[], []⟩⟩ none (some ⟨none⟩)
    0 1 2 3 (0, 0) (5, 5) rfl

/-! ### C6 -/

/-- A scheduler state that is bound to data, live, size-dirty, dirty and
has a frame pending: the state reached right after a resize notification
on an active session. -/
def activeReady (s : CanvasRender) : Prop :=
  s.canvasData.isSome = true ∧ s.stopped = false ∧
  s.canvasSizeDirty = true ∧ s.isDirty = true ∧ s.rafPending = true

lemma resize_step_active {s : CanvasRender} (now : ℚ)
    (hd : s.canvasData.isSome = true) (hs : s.stopped = false) :
    (stepEv s (Event.resizeEv now)).2.resizes = [] ∧
    activeReady (stepEv s (Event.resizeEv now)).1 := by
  have hd' : ({ s with canvasSizeDirty := true } :
      CanvasRender).canvasData.isSome = true := hd
  obtain ⟨h1, h2⟩ := markDirty_isDirty_of_active (s := { s with canvasSizeDirty := true })
    now hd' hs
  refine ⟨rfl, ?_, ?_, ?_, h1, h2⟩
  · rw [show (stepEv s (Event.resizeEv now)).1 =
      (markDirty now { s with canvasSizeDirty := true }).1 from rfl,
      markDirty_canvasData]
    exact hd
  · rw [show (stepEv s (Event.resizeEv now)).1 =
      (markDirty now { s with canvasSizeDirty := true }).1 from rfl,
      markDirty_stopped]
    exact hs
  · rw [show (stepEv s (Event.resizeEv now)).1 =
      (markDirty now { s with canvasSizeDirty := true }).1 from rfl,
      markDirty_canvasSizeDirty]

lemma resizeIfDirty_resizes_of_dirty {s : CanvasRender} (env : RenderEnv)
    (h : s.canvasSizeDirty = true) :
    (resizeIfDirty env s).2 = [(env.boxW * env.dpr, env.boxH * env.dpr)] := by
  unfold resizeIfDirty; rw [if_pos h]

lemma resizeIfDirty_clears {s : CanvasRender} (env : RenderEnv)
    (h : s.canvasSizeDirty = true) :
    (resizeIfDirty env s).1.canvasSizeDirty = false := by
  unfold resizeIfDirty; rw [if_pos h]

lemma resizeIfDirty_resizes_of_clean {s : CanvasRender} (env : RenderEnv)
    (h : s.canvasSizeDirty = false) : (resizeIfDirty env s).2 = [] := by
  unfold resizeIfDirty; rw [if_neg]; simp [h]

lemma render_resizes (now : ℚ) (env : RenderEnv) (s : CanvasRender) :
    (render now env s).2.1 = (resizeIfDirty env s).2 := by
  unfold render; split_ifs <;> rfl

lemma render_canvasSizeDirty (now : ℚ) (env : RenderEnv) (s : CanvasRender) :
    (render now env s).1.canvasSizeDirty =
      (resizeIfDirty env s).1.canvasSizeDirty := by
  unfold render
  split_ifs
  · rw [markDirty_canvasSizeDirty]
  · rfl

lemma frame_step_ready {s : CanvasRender} (h : activeReady s) (t : ℚ)
    (env : RenderEnv) :
    (stepEv s (Event.frameEv t env)).2.resizes =
      [(env.boxW * env.dpr, env.boxH * env.dpr)] ∧
    (stepEv s (Event.frameEv t env)).1.canvasSizeDirty = false := by
  obtain ⟨hd, hs, hsz, hdirty, hp⟩ := h
  have hsz' : ({ s with isDirty := false, prevTime := t } :
      CanvasRender).canvasSizeDirty = true := hsz
  simp only [stepEv]
  rw [if_pos hp]
  unfold loop
  rw [if_neg (by simp [hdirty, hs])]
  constructor
  · show (render t env { s with isDirty := false, prevTime := t }).2.1 = _
    rw [render_resizes, resizeIfDirty_resizes_of_dirty env hsz']
  · show (render t env { s with isDirty := false, prevTime := t
      }).1.canvasSizeDirty = false
    rw [render_canvasSizeDirty, resizeIfDirty_clears env hsz']

lemma resize_seq_coalesce (now t : ℚ) (env : RenderEnv) :
    ∀ (k : ℕ) (s : CanvasRender), activeReady s →
      allResizes s (List.replicate k (Event.resizeEv now) ++
          [Event.frameEv t env]) =
        [(env.boxW * env.dpr, env.boxH * env.dpr)] ∧
      (runFrom s (List.replicate k (Event.resizeEv now) ++
          [Event.frameEv t env])).canvasSizeDirty = false := by
  intro k
  induction k with
  | zero =>
    intro s h
    obtain ⟨h1, h2⟩ := frame_step_ready h t env
    exact ⟨by simpa [allResizes] using h1, by simpa [runFrom] using h2⟩
  | succ k ih =>
    intro s h
    obtain ⟨hd, hs, _, _, _⟩ := h
    obtain ⟨hres, hact⟩ := resize_step_active (s := s) now hd hs
    obtain ⟨ih1, ih2⟩ := ih (stepEv s (Event.resizeEv now)).1 hact
    constructor
    · rw [List.replicate_succ, List.cons_append, allResizes, hres,
        List.nil_append, ih1]
    · rw [List.replicate_succ, List.cons_append, runFrom, ih2]

/-- C6: any positive number of resize notifications arriving on an
active session before the next render pass results in exactly one
backing-surface resize, performed by that render pass and sized from the
element box measured at render time multiplied by the device
pixel-density ratio, after which the size-dirty flag is clear; and a
render pass whose size-dirty flag is clear performs no resize. -/
theorem resize_coalescing :
    (∀ (s : CanvasRender) (n : ℕ) (now t : ℚ) (env : RenderEnv),
      s.canvasData.isSome = true → s.stopped = false → 1 ≤ n →
      allResizes s (List.replicate n (Event.resizeEv now) ++
          [Event.frameEv t env]) =
        [(env.boxW * env.dpr, env.boxH * env.dpr)] ∧
      (runFrom s (List.replicate n (Event.resizeEv now) ++
          [Event.frameEv t env])).canvasSizeDirty = false) ∧
    (∀ (s : CanvasRender) (t : ℚ) (env : RenderEnv),
      s.canvasSizeDirty = false → (loop t env s).2.resizes = []) := by
  constructor
  · intro s n now t env hd hs hn
    obtain ⟨k, rfl⟩ : ∃ k, n = k + 1 :=
      ⟨n - 1, (Nat.succ_pred_eq_of_pos hn).symm⟩
    obtain ⟨hres, hact⟩ := resize_step_active (s := s) now hd hs
    obtain ⟨h1, h2⟩ := resize_seq_coalesce now t env k _ hact
    constructor
    · rw [List.replicate_succ, List.cons_append, allResizes, hres,
        List.nil_append, h1]
    · rw [List.replicate_succ, List.cons_append, runFrom, h2]
  · intro s t env h
    have h' : ({ s with isDirty := false, prevTime := t } :
        CanvasRender).canvasSizeDirty = false := h
    by_cases h1 : ¬s.isDirty = true ∨ s.stopped = true
    · unfold loop; rw [if_pos h1]; rfl
    · unfold loop; rw [if_neg h1]
      show (render t env { s with isDirty := false, prevTime := t }).2.1 = []
      rw [render_resizes, resizeIfDirty_resizes_of_clean env h']

/-- The render environment used by concrete witnesses. -/
def envC : RenderEnv := ⟨10, 20, 2, false⟩

/-- Witness for `resize_coalescing`: three resize notifications on the
fresh active session, then one frame, give exactly one resize of the
measured box scaled by the pixel ratio. -/
theorem resize_coalescing_w :
    allResizes sActive (List.replicate 3 (Event.resizeEv 1) ++
        [Event.frameEv 2 envC]) =
      [(envC.boxW * envC.dpr, envC.boxH * envC.dpr)] ∧
    (runFrom sActive (List.replicate 3 (Event.resizeEv 1) ++
        [Event.frameEv 2 envC])).canvasSizeDirty = false :=
  resize_coalescing.1 sActive 3 1 2 envC rfl rfl (by decide)

/-! ### C7 -/

/-- C7: a frame callback that finds the dirty flag clear or the
scheduler destroyed performs no render and requests no further frame
callback — it only clears the pending handle; and along any event trace
from a freshly constructed session, a frame callback renders only if
some `markDirty`-invoking event (a direct call, a resize notification, a
`setData`, or a program-invoked `markDirty` during a render pass)
occurred with no render pass between it and this frame. -/
theorem no_idle_self_renewal :
    (∀ (s : CanvasRender) (t : ℚ) (env : RenderEnv),
      s.isDirty = false ∨ s.stopped = true →
      loop t env s = ({ s with rafPending := false }, StepOut.none)) ∧
    (∀ (cd : Option ICanvasData) (t0 : ℚ) (z : ℚ × ℚ) (l : List Event)
       (t : ℚ) (env : RenderEnv),
      (stepEv (runFrom (mkCanvasRender cd t0 z) l)
          (Event.frameEv t env)).2.rendered = true →
      ∃ l1 e l2, l = l1 ++ e :: l2 ∧ marksDirtyEvent e = true ∧
        renderCount (runFrom (mkCanvasRender cd t0 z) (l1 ++ [e])) l2 = 0) := by
  constructor
  · intro s t env h
    unfold loop
    rw [if_pos]
    rcases h with h | h <;> simp [h]
  · intro cd t0 z l t env hr
    exact dirty_has_mark _ rfl l (rendered_isDirty_before hr)

/-- Witness for `no_idle_self_renewal`: the fresh session idles, and
after a single `markDirty` event a frame does render, with that event as
the required mark. -/
theorem no_idle_self_renewal_w :
    loop 5 envC sActive = ({ sActive with rafPending := false }, StepOut.none) ∧
    ∃ l1 e l2, ([Event.markDirtyEv 3] : List Event) = l1 ++ e :: l2 ∧
      marksDirtyEvent e = true ∧
      renderCount (runFrom (mkCanvasRender (some ⟨none⟩) 0 (0, 0))
        (l1 ++ [e])) l2 = 0 :=
  ⟨no_idle_self_renewal.1 sActive 5 envC (Or.inl rfl),
   no_idle_self_renewal.2 (some ⟨none⟩) 0 (0, 0) [Event.markDirtyEv 3] 9 envC
     (by decide)⟩

end LlmViz
